import Mathlib

/-!
Verification of the Radio France podcast explorer MCP server (`server.py`)
against its natural-language specification.

The server's tools are shallowly embedded as Lean functions:

* JSON values (the parsed form of every GraphQL response and every tool
  result) are the inductive type `Json`; `json.dumps`/`json.loads` round
  trips are the identity on this representation and are elided.
* Python dictionary/sequence primitives (`d.get(k, default)`, `d[k]`,
  `k in d`, iteration, `len`, truthiness, floor division, slicing) are
  modelled by functions in the exception monad `PyM := Except String`,
  raising exactly where Python raises (`AttributeError` on `.get` of a
  non-dict, `KeyError`/`TypeError` on indexing, and so on).
* The GraphQL gateway (`gql_client.execute_async`) is a parameter: an
  environment `Env` carries the optional API key and a function from the
  statically enumerated query set to either a response tree or a raised
  transport/remote error.  Each API-backed tool counts its gateway
  round trips; its public value is `(resultJson, gatewayCallCount)`.
* Python strings are treated as sequences of code points; `str.lower` is
  modelled with `Char.toLower` (ASCII case folding, which covers every
  station name the code compares against).
-/

namespace RadioFrance

/-- A JSON value: the parsed form of gateway responses and tool results. -/
inductive Json where
  | null
  | bool (b : Bool)
  | num (n : Int)
  | str (s : String)
  | arr (elems : List Json)
  | obj (fields : List (String × Json))

/-- Computations that may raise a Python exception (carried as its `str`). -/
abbrev PyM := Except String

/-- Python `d.get(k, default)`: `AttributeError` when `d` is not a dict. -/
def jGetD (j : Json) (k : String) (dflt : Json) : PyM Json :=
  match j with
  | .obj fs => pure ((fs.lookup k).getD dflt)
  | _ => Except.error "AttributeError"

/-- Python `d[k]` for a string key: `KeyError` when absent, `TypeError`
when the value is not a dict. -/
def jIndexS (j : Json) (k : String) : PyM Json :=
  match j with
  | .obj fs =>
    match fs.lookup k with
    | some v => pure v
    | none => Except.error "KeyError"
  | _ => Except.error "TypeError"

/-- Whether `pre` is a leading segment of `s` (Python `s.startswith(pre)`). -/
def strStarts : List Char → List Char → Bool
  | _, [] => true
  | [], _ :: _ => false
  | c :: cs, p :: ps => p == c && strStarts cs ps

/-- Whether `needle` occurs contiguously inside `hay` (Python `needle in hay`). -/
def hasSub : List Char → List Char → Bool
  | hay, needle =>
    if strStarts hay needle then true
    else
      match hay with
      | [] => false
      | _ :: t => hasSub t needle

/-- Python `k in x`: key test on dicts, membership on lists, substring on
strings, `TypeError` otherwise. -/
def pyContains (j : Json) (k : String) : PyM Bool :=
  match j with
  | .obj fs => pure (fs.lookup k).isSome
  | .arr l => pure (l.any fun e => match e with | .str s => s == k | _ => false)
  | .str s => pure (hasSub s.toList k.toList)
  | _ => Except.error "TypeError"

/-- Python iteration: list elements, dict keys, string characters. -/
def pyIter (j : Json) : PyM (List Json) :=
  match j with
  | .arr l => pure l
  | .obj fs => pure (fs.map fun p => .str p.1)
  | .str s => pure (s.toList.map fun c => .str (String.mk [c]))
  | _ => Except.error "TypeError"

/-- Python `len`. -/
def pyLen (j : Json) : PyM Int :=
  match j with
  | .arr l => pure l.length
  | .obj fs => pure fs.length
  | .str s => pure s.length
  | _ => Except.error "TypeError"

/-- Python truthiness of a JSON value. -/
def pyTruthy : Json → Bool
  | .null => false
  | .bool b => b
  | .num n => n != 0
  | .str s => s != ""
  | .arr l => !l.isEmpty
  | .obj fs => !fs.isEmpty

/-- Python `a // b` (floor division, raising on a zero divisor). -/
def pyFloorDiv (a b : Int) : PyM Int :=
  if b == 0 then Except.error "ZeroDivisionError" else pure (Int.fdiv a b)

/-- Python `str(...)` as used in the f-string error messages.  Exact for
the scalar values those messages are built from. -/
def pyStr : Json → String
  | .null => "None"
  | .bool true => "True"
  | .bool false => "False"
  | .num n => toString n
  | .str s => s
  | .arr _ => "[...]"
  | .obj _ => "\x7b...\x7d"

/-- Python `d[k] = v` on a dict: overwrite in place or append at the end. -/
def setField : List (String × Json) → String → Json → List (String × Json)
  | [], k, v => [(k, v)]
  | (k', v') :: rest, k, v =>
    if k' == k then (k, v) :: rest else (k', v') :: setField rest k v

/-- Python item assignment `j[k] = v` (`TypeError` on non-dicts). -/
def jSet (j : Json) (k : String) (v : Json) : PyM Json :=
  match j with
  | .obj fs => pure (.obj (setField fs k v))
  | _ => Except.error "TypeError"

/-- The statically enumerated GraphQL query set issued by the server. -/
inductive GwQuery where
  | taxonomies (keyword : Option String) (limit : Int)
  | diffusions (taxonomyId : Json) (limit : Int)
  | brand (brandId : String)
  | grid (stationCode : String)

/-- The server's environment: the optional credential and the remote
gateway, which either answers a query with a response tree or raises a
transport/remote error. -/
structure Env where
  apiKey : Option String
  gw : GwQuery → Except String Json

/-- Python `if not API_KEY` is falsy exactly for an unset or empty key. -/
def apiKeySet (env : Env) : Bool :=
  match env.apiKey with
  | none => false
  | some s => s != ""

/-- The uniform error shape every tool uses for failures. -/
def errObj (msg : String) : Json := .obj [("error", .str msg)]

/-- The configuration-error message returned when the credential is absent. -/
def apiKeyMsg : String :=
  "API key not set. Please configure RADIOFRANCE_API_KEY in your .env file."

/-- The guarded pattern `isinstance(x, dict) and k in x` (never raises). -/
def isDictWithKey (j : Json) (k : String) : Bool :=
  match j with
  | .obj fs => (fs.lookup k).isSome
  | _ => false

/-- Shared body of the four API-backed leaf tools: one gateway round trip,
then pure formatting; any raised exception is converted at the tool
boundary into the uniform error object.  The second component counts the
gateway invocations performed. -/
def runLeaf (env : Env) (q : GwQuery) (format : Json → PyM Json)
    (errPre : String) : Json × Nat :=
  match env.gw q with
  | .error e => (errObj (errPre ++ e), 1)
  | .ok result =>
    match format result with
    | .ok j => (j, 1)
    | .error e => (errObj (errPre ++ e), 1)

/-- Response formatting of `get_taxonomies`: the `taxonomies` value when
the key is present, the empty list otherwise. -/
def formatTaxonomies (result : Json) : PyM Json := do
  if (← pyContains result "taxonomies") then
    jIndexS result "taxonomies"
  else
    pure (.arr [])

/-- Tool `get_taxonomies`. -/
def get_taxonomies (env : Env) (keyword : Option String) (limit : Int) :
    Json × Nat :=
  if !apiKeySet env then (errObj apiKeyMsg, 0)
  else runLeaf env (.taxonomies keyword limit) formatTaxonomies
    "Error getting taxonomies: "

/-- The per-diffusion normalization step of `get_diffusions` (the dict
literal built for each raw diffusion). -/
def formatDiffusion (diffusion : Json) : PyM Json := do
  let did ← jGetD diffusion "id" (.str "")
  let dtitle ← jGetD diffusion "title" (.str "")
  let durl ← jGetD diffusion "url" (.str "")
  let ddesc ← jGetD diffusion "standFirst" (.str "")
  let ddate ← jGetD diffusion "diffusionDate" (.str "")
  let pe ← jGetD diffusion "podcastEpisode" (.obj [])
  let podUrl ← jGetD pe "url" (.str "")
  let brand1 ← jGetD diffusion "brand" (.obj [])
  let brandTitle ← jGetD brand1 "title" (.str "")
  let brand2 ← jGetD diffusion "brand" (.obj [])
  let station ← jGetD brand2 "station" (.obj [])
  let stationName ← jGetD station "name" (.str "")
  pure (.obj [("id", did), ("title", dtitle), ("url", durl),
    ("description", ddesc), ("diffusionDate", ddate), ("podcastUrl", podUrl),
    ("brand", brandTitle), ("station", stationName)])

/-- Response formatting of `get_diffusions`. -/
def formatDiffusionsResult (taxonomy_id : Json) (result : Json) : PyM Json := do
  let c1 ← pyContains result "taxonomy"
  let cond ← if c1 then do
      let t ← jIndexS result "taxonomy"
      pyContains t "diffusions"
    else pure false
  if cond then
    let taxonomy ← jIndexS result "taxonomy"
    let taxId ← jGetD taxonomy "id" (.str "")
    let taxTitle ← jGetD taxonomy "title" (.str "")
    let rawDiffs ← pyIter (← jIndexS taxonomy "diffusions")
    let formatted ← rawDiffs.mapM formatDiffusion
    pure (.obj [("taxonomyId", taxId), ("taxonomyTitle", taxTitle),
      ("diffusions", .arr formatted)])
  else
    pure (errObj ("No diffusions found for taxonomy ID: " ++ pyStr taxonomy_id))

/-- Tool `get_diffusions`.  The taxonomy id is an arbitrary JSON value
because the composition layer forwards whatever `taxonomy.get("id", "")`
produced. -/
def get_diffusions (env : Env) (taxonomy_id : Json) (limit : Int) :
    Json × Nat :=
  if !apiKeySet env then (errObj apiKeyMsg, 0)
  else runLeaf env (.diffusions taxonomy_id limit)
    (formatDiffusionsResult taxonomy_id) "Error getting diffusions: "

/-- Response formatting of `get_brand`. -/
def formatBrandResult (brand_id : String) (result : Json) : PyM Json := do
  if (← pyContains result "brand") then
    let brand ← jIndexS result "brand"
    let bid ← jGetD brand "id" (.str "")
    let btitle ← jGetD brand "title" (.str "")
    let bdesc ← jGetD brand "description" (.str "")
    let burl ← jGetD brand "url" (.str "")
    let bstation ← do
      let st ← jGetD brand "station" (.obj [])
      jGetD st "name" (.str "")
    let concepts ← (do
      if (← pyContains brand "concepts") then
        let cs ← pyIter (← jIndexS brand "concepts")
        cs.mapM fun concept => do
          let cid ← jGetD concept "id" (.str "")
          let ctitle ← jGetD concept "title" (.str "")
          pure (Json.obj [("id", cid), ("title", ctitle)])
      else pure [])
    let latest ← (do
      if (← pyContains brand "latestDiffusions") then
        let ds ← pyIter (← jIndexS brand "latestDiffusions")
        ds.mapM fun diffusion => do
          let did ← jGetD diffusion "id" (.str "")
          let dtitle ← jGetD diffusion "title" (.str "")
          let durl ← jGetD diffusion "url" (.str "")
          let ddesc ← jGetD diffusion "standFirst" (.str "")
          let ddate ← jGetD diffusion "diffusionDate" (.str "")
          pure (Json.obj [("id", did), ("title", dtitle), ("url", durl),
            ("description", ddesc), ("diffusionDate", ddate)])
      else pure [])
    pure (.obj [("id", bid), ("title", btitle), ("description", bdesc),
      ("url", burl), ("station", bstation), ("concepts", .arr concepts),
      ("latestDiffusions", .arr latest)])
  else
    pure (errObj ("No brand found with ID: " ++ brand_id))

/-- Tool `get_brand`. -/
def get_brand (env : Env) (brand_id : String) : Json × Nat :=
  if !apiKeySet env then (errObj apiKeyMsg, 0)
  else runLeaf env (.brand brand_id) (formatBrandResult brand_id)
    "Error getting brand information: "

/-- The program record `get_station_grid` builds from one step and its
diffusion. -/
def stepEntry (step diffusion : Json) : PyM Json := do
  let st ← jGetD step "startTime" (.str "")
  let et ← jGetD step "endTime" (.str "")
  let did ← jGetD diffusion "id" (.str "")
  let dtitle ← jGetD diffusion "title" (.str "")
  let ddesc ← jGetD diffusion "standFirst" (.str "")
  let durl ← jGetD diffusion "url" (.str "")
  let dbrand ← do
    let b ← jGetD diffusion "brand" (.obj [])
    jGetD b "title" (.str "")
  pure (.obj [("startTime", st), ("endTime", et), ("id", did),
    ("title", dtitle), ("description", ddesc), ("url", durl),
    ("brand", dbrand)])

/-- Per-step formatting of `get_station_grid`: a program entry when the
step carries a `diffusion` key, nothing otherwise. -/
def formatStep (step : Json) : PyM (Option Json) := do
  if (← pyContains step "diffusion") then
    let diffusion ← jIndexS step "diffusion"
    let entry ← stepEntry step diffusion
    pure (some entry)
  else
    pure none

/-- The `programs` accumulation loop of `get_station_grid`. -/
def formatPrograms : List Json → PyM (List Json)
  | [] => pure []
  | step :: rest => do
    let e ← formatStep step
    let tail ← formatPrograms rest
    pure (match e with | some x => x :: tail | none => tail)

/-- Response formatting of `get_station_grid`. -/
def formatGridResult (station_code : String) (result : Json) : PyM Json := do
  if (← pyContains result "grid") then
    let grid ← jIndexS result "grid"
    let sName ← do
      let st ← jGetD grid "station" (.obj [])
      jGetD st "name" (.str "")
    let sId ← do
      let st ← jGetD grid "station" (.obj [])
      jGetD st "id" (.str "")
    let programs ← (do
      if (← pyContains grid "steps") then
        formatPrograms (← pyIter (← jIndexS grid "steps"))
      else pure [])
    pure (.obj [("stationName", sName), ("stationId", sId),
      ("programs", .arr programs)])
  else
    pure (errObj ("No grid found for station: " ++ station_code))

/-- Tool `get_station_grid`. -/
def get_station_grid (env : Env) (station_code : String) : Json × Nat :=
  if !apiKeySet env then (errObj apiKeyMsg, 0)
  else runLeaf env (.grid station_code) (formatGridResult station_code)
    "Error getting station grid: "

/-- Python `l[:k]` (a negative bound counts from the end, clamped). -/
def pyTake (k : Int) (l : List Json) : List Json :=
  if 0 ≤ k then l.take k.toNat else l.take ((l.length : Int) + k).toNat

/-- Python `x[i]` for a non-negative index. -/
def pyIndexNat (j : Json) (i : Nat) : PyM Json :=
  match j with
  | .arr l =>
    match l.get? i with
    | some x => pure x
    | none => Except.error "IndexError"
  | .str s =>
    match s.toList.get? i with
    | some c => pure (.str (String.mk [c]))
    | none => Except.error "IndexError"
  | _ => Except.error "TypeError"

/-- Python `x[lo:hi]` for non-negative bounds. -/
def pySlice (j : Json) (lo hi : Nat) : PyM Json :=
  match j with
  | .arr l => pure (.arr ((l.drop lo).take (hi - lo)))
  | .str s => pure (.str (String.mk ((s.toList.drop lo).take (hi - lo))))
  | _ => Except.error "TypeError"

/-- Python `s.lower()` over the code points (ASCII case folding). -/
def strLower (s : String) : String := String.mk (s.toList.map Char.toLower)

/-- The fixed station-name-to-code table of `get_station_programs`. -/
def stationMapping : List (String × String) :=
  [("France Inter", "franceinter"), ("France Info", "franceinfo"),
   ("France Culture", "franceculture"), ("France Musique", "francemusique"),
   ("France Bleu", "francebleu"), ("FIP", "fip"), ("Mouv", "mouv")]

/-- The case-insensitive second pass over the station table. -/
def lookupCaseInsensitive : List (String × String) → String → Option String
  | [], _ => none
  | (name, code) :: rest, sn =>
    if strLower name == strLower sn then some code
    else lookupCaseInsensitive rest sn

/-- The three-stage station-code resolution: exact table lookup, then
case-insensitive lookup, then the lowercase/strip-spaces heuristic. -/
def resolveStationCode (station_name : String) : String :=
  match stationMapping.lookup station_name with
  | some code => code
  | none =>
    match lookupCaseInsensitive stationMapping station_name with
    | some code => code
    | none => String.mk ((strLower station_name).toList.filter fun c => c != ' ')

/-- The program record built for the current and upcoming slots. -/
def mkProgramEntry (program : Json) : PyM Json := do
  let t ← jGetD program "title" (.str "")
  let d ← jGetD program "description" (.str "")
  let st ← jGetD program "startTime" (.str "")
  let et ← jGetD program "endTime" (.str "")
  let u ← jGetD program "url" (.str "")
  pure (.obj [("title", t), ("description", d), ("startTime", st),
    ("endTime", et), ("url", u)])

/-- Body of `get_station_programs` (inside its exception handler). -/
def get_station_programsBody (env : Env) (station_name : String) : PyM Json := do
  let station_code := resolveStationCode station_name
  let grid_data := (get_station_grid env station_code).1
  if isDictWithKey grid_data "error" then
    pure grid_data
  else do
    let sName ← jGetD grid_data "stationName" (.str station_name)
    let programs ← jGetD grid_data "programs" (.arr [])
    if pyTruthy programs then do
      let p0 ← pyIndexNat programs 0
      let current ← mkProgramEntry p0
      let upcomingSrc ← pyIter (← pySlice programs 1 6)
      let upcoming ← upcomingSrc.mapM mkProgramEntry
      pure (.obj [("stationName", sName), ("currentProgram", current),
        ("upcomingPrograms", .arr upcoming)])
    else
      pure (.obj [("stationName", sName), ("currentProgram", .null),
        ("upcomingPrograms", .arr [])])

/-- Tool `get_station_programs`. -/
def get_station_programs (env : Env) (station_name : String) : Json :=
  if !apiKeySet env then errObj apiKeyMsg
  else
    match get_station_programsBody env station_name with
    | .ok j => j
    | .error e => errObj ("Error getting station programs: " ++ e)

/-- Tagging of one diffusion with its source taxonomy inside
`search_podcasts` (two dict item assignments). -/
def spTagDiffusion (taxonomy diffusion : Json) : PyM Json := do
  let t ← jGetD taxonomy "title" (.str "")
  let d1 ← jSet diffusion "taxonomyTitle" t
  let ty ← jGetD taxonomy "type" (.str "")
  jSet d1 "taxonomyType" ty

/-- The per-taxonomy diffusion collection loop of `search_podcasts`:
each taxonomy with a truthy id is queried for `limit // n + 1`
diffusions, and a result lacking a `diffusions` key (error shapes
included) contributes nothing. -/
def spLoop (env : Env) (limit n : Int) : List Json → PyM (List Json)
  | [] => pure []
  | taxonomy :: rest => do
    let taxonomy_id ← jGetD taxonomy "id" (.str "")
    let here ←
      if pyTruthy taxonomy_id then do
        let share ← pyFloorDiv limit n
        let diffusions_data := (get_diffusions env taxonomy_id (share + 1)).1
        if isDictWithKey diffusions_data "diffusions" then do
          let diffs ← pyIter (← jIndexS diffusions_data "diffusions")
          diffs.mapM (spTagDiffusion taxonomy)
        else pure []
      else pure []
    let restD ← spLoop env limit n rest
    pure (here ++ restD)

/-- Lexicographic comparison of code-point sequences: exactly Python's
`<=` on `str` values (a proper initial segment compares smaller). -/
def listLe : List Char → List Char → Bool
  | [], _ => true
  | _ :: _, [] => false
  | a :: as, b :: bs =>
    if a.toNat < b.toNat then true
    else if b.toNat < a.toNat then false
    else listLe as bs

/-- Python's string comparison, on the code points. -/
def keyLe (a b : String) : Bool := listLe a.toList b.toList

instance decRelKeyLe :
    DecidableRel fun (a b : String × Json) => keyLe a.1 b.1 = true :=
  fun _ _ => inferInstanceAs (Decidable (_ = true))

instance totalKeyLe : IsTotal (String × Json) fun a b => keyLe a.1 b.1 = true := by
  constructor
  intro a b
  have general : ∀ x y : List Char, listLe x y = true ∨ listLe y x = true := by
    intro x
    induction x with
    | nil => intro y; left; rfl
    | cons c cs ih =>
      intro y
      cases y with
      | nil => right; rfl
      | cons d ds =>
        by_cases h1 : c.toNat < d.toNat
        · left; simp [listLe, h1]
        · by_cases h2 : d.toNat < c.toNat
          · right; simp [listLe, h2]
          · rcases ih ds with hl | hr
            · left; simp [listLe, h1, h2, hl]
            · right; simp [listLe, h1, h2, hr]
  exact general a.1.toList b.1.toList

instance transKeyLe : IsTrans (String × Json) fun a b => keyLe a.1 b.1 = true := by
  constructor
  intro a b c hab hbc
  have general : ∀ x y z : List Char,
      listLe x y = true → listLe y z = true → listLe x z = true := by
    intro x
    induction x with
    | nil => intro y z _ _; rfl
    | cons p ps ih =>
      intro y z h1 h2
      cases y with
      | nil => simp [listLe] at h1
      | cons q qs =>
        cases z with
        | nil => simp [listLe] at h2
        | cons r rs =>
          by_cases hpq : p.toNat < q.toNat
          · by_cases hqr : q.toNat < r.toNat
            · have : p.toNat < r.toNat := by omega
              simp [listLe, this]
            · by_cases hrq : r.toNat < q.toNat
              · simp [listLe, hqr, hrq] at h2
              · have : p.toNat < r.toNat := by omega
                simp [listLe, this]
          · by_cases hqp : q.toNat < p.toNat
            · simp [listLe, hpq, hqp] at h1
            · have h1' : listLe ps qs = true := by
                simpa [listLe, hpq, hqp] using h1
              by_cases hqr : q.toNat < r.toNat
              · have : p.toNat < r.toNat := by omega
                simp [listLe, this]
              · by_cases hrq : r.toNat < q.toNat
                · simp [listLe, hqr, hrq] at h2
                · have h2' : listLe qs rs = true := by
                    simpa [listLe, hqr, hrq] using h2
                  have h5 : ¬ p.toNat < r.toNat := by omega
                  have h6 : ¬ r.toNat < p.toNat := by omega
                  simp [listLe, h5, h6]
                  exact ih qs rs h1' h2'
  exact general a.1.toList b.1.toList c.1.toList hab hbc

/-- The sorting step once every sort key is known to be a string:
a stable insertion sort, ascending by key, `keyLe` being exactly
Python's code-point-lexicographic (case-sensitive) string order. -/
def sortKeyed (kl : List (String × Json)) : List (String × Json) :=
  kl.insertionSort fun a b => keyLe a.1 b.1 = true

/-- Python `sorted(l, key=lambda x: x.get("brand", ""))`: the key is
computed for every element up front; lists of two or more elements with a
non-string key raise a comparison `TypeError` (Python would equally sort
all-numeric keys, a case no server value produces: the formatted `brand`
field the composition sorts on is built by `formatDiffusion`). -/
def pySortByBrand (l : List Json) : PyM (List Json) := do
  let keyed ← l.mapM fun x => do
    let b ← jGetD x "brand" (.str "")
    pure (b, x)
  if keyed.length ≤ 1 then pure (keyed.map fun p => p.2)
  else do
    let skeyed ← keyed.mapM fun p =>
      match p.1 with
      | .str s => pure (s, p.2)
      | _ => Except.error "TypeError: unsupported comparison"
    pure ((sortKeyed skeyed).map fun p => p.2)

/-- Body of `search_podcasts` (inside its exception handler). -/
def search_podcastsBody (env : Env) (query : String) (limit : Int) :
    PyM Json := do
  let taxonomies_data := (get_taxonomies env (some query) 5).1
  if isDictWithKey taxonomies_data "error" then
    pure taxonomies_data
  else do
    let taxList ← pyIter taxonomies_data
    let n ← pyLen taxonomies_data
    let all1 ← spLoop env limit n taxList
    let sorted1 ← pySortByBrand all1
    let limited := pyTake limit sorted1
    pure (.obj [("query", .str query), ("results", .arr limited)])

/-- Tool `search_podcasts`. -/
def search_podcasts (env : Env) (query : String) (limit : Int) : Json :=
  if !apiKeySet env then errObj apiKeyMsg
  else
    match search_podcastsBody env query limit with
    | .ok j => j
    | .error e => errObj ("Error searching podcasts: " ++ e)

/-- The episode reshaping applied to each diffusion by `search_episodes`. -/
def mkEpisode (diffusion : Json) : PyM Json := do
  let t ← jGetD diffusion "title" (.str "")
  let d ← jGetD diffusion "description" (.str "")
  let u ← jGetD diffusion "url" (.str "")
  let pd ← jGetD diffusion "diffusionDate" (.str "")
  let b ← jGetD diffusion "brand" (.str "")
  let st ← jGetD diffusion "station" (.str "")
  let tt ← jGetD diffusion "taxonomyTitle" (.str "")
  pure (.obj [("title", t), ("description", d), ("url", u),
    ("publishedDate", pd), ("duration", .str ""),
    ("show", .obj [("title", b), ("url", .str "")]),
    ("station", st), ("taxonomyTitle", tt)])

/-- Body of `search_episodes` (inside its exception handler). -/
def search_episodesBody (env : Env) (topic : String) (limit : Int) :
    PyM Json := do
  let search_data := search_podcasts env topic limit
  if isDictWithKey search_data "error" then
    pure search_data
  else do
    let episodes ←
      if (← pyContains search_data "results") then do
        let rs ← pyIter (← jIndexS search_data "results")
        rs.mapM mkEpisode
      else pure []
    pure (.arr episodes)

/-- Tool `search_episodes`. -/
def search_episodes (env : Env) (topic : String) (limit : Int) : Json :=
  if !apiKeySet env then errObj apiKeyMsg
  else
    match search_episodesBody env topic limit with
    | .ok j => j
    | .error e => errObj ("Error searching episodes: " ++ e)

/-- The fixed station list scanned by `natural_language_search`. -/
def stationNames : List String :=
  ["France Inter", "France Info", "France Culture", "France Musique",
   "France Bleu", "FIP", "Mouv"]

/-- Python `station_name.lower() in query.lower()`. -/
def nameMatches (query name : String) : Bool :=
  hasSub (strLower query).toList (strLower name).toList

/-- The station-typed answer returned when a station stage succeeds. -/
def stationAnswer (station_name : String) (station_data : Json) : Json :=
  .obj [("queryType", .str "station"), ("searchTerm", .str station_name),
    ("results", station_data)]

/-- Whether `j` is a dict that lacks the key `k`
(the pattern `isinstance(x, dict) and k not in x`). -/
def isDictWithoutKey (j : Json) (k : String) : Bool :=
  match j with
  | .obj fs => (fs.lookup k).isNone
  | _ => false

/-- The station scan of `natural_language_search`: the first listed
station whose name occurs in the query and whose programs lookup comes
back as an error-free dict wins; a failing match is skipped rather than
propagated. -/
def stationLoop (env : Env) (query : String) : List String → Option Json
  | [] => none
  | name :: rest =>
    if nameMatches query name then
      let station_data := get_station_programs env name
      if isDictWithoutKey station_data "error" then
        some (stationAnswer name station_data)
      else stationLoop env query rest
    else stationLoop env query rest

/-- The terminal "general" answer of `natural_language_search`. -/
def nlsGeneral (query : String) : Json :=
  .obj [("queryType", .str "general"), ("searchTerm", .str query),
    ("message", .str "No specific content found for your query. Try a more specific search term related to a podcast, episode, or Radio France station.")]

/-- The taxonomy stage of `natural_language_search`. -/
def nlsTaxStage (env : Env) (query : String) (max_results : Int) : Json :=
  let taxonomies_data := (get_taxonomies env (some query) max_results).1
  match taxonomies_data with
  | .arr ts => if ts.length > 0 then
      .obj [("queryType", .str "taxonomies"), ("searchTerm", .str query),
        ("results", .arr ts)]
    else nlsGeneral query
  | _ => nlsGeneral query

/-- The stages of `natural_language_search` that run when no station
matched (or every matching station stage failed): episodes, then
taxonomies, then the general answer. -/
def nlsFallthrough (env : Env) (query : String) (max_results : Int) : Json :=
  let episodes_data := search_episodes env query max_results
  match episodes_data with
  | .arr es => if es.length > 0 then
      .obj [("queryType", .str "episodes"), ("searchTerm", .str query),
        ("results", .arr es)]
    else nlsTaxStage env query max_results
  | _ => nlsTaxStage env query max_results

/-- Tool `natural_language_search`. -/
def natural_language_search (env : Env) (query : String) (max_results : Int) :
    Json :=
  if !apiKeySet env then errObj apiKeyMsg
  else
    match stationLoop env query stationNames with
    | some ans => ans
    | none => nlsFallthrough env query max_results

/-- The scraping site base URL. -/
def WEBSITE_BASE_URL : String := "https://www.radiofrance.fr"

/-- The URL absolutization applied to every scraped link: prepend the
site base when the string does not already start with `http`. -/
def resolveUrl (url : String) : String :=
  if strStarts url.toList "http".toList then url else WEBSITE_BASE_URL ++ url

/-- Python `s.strip()`. -/
def pyStrip (s : String) : String :=
  String.mk
    (((s.toList.dropWhile Char.isWhitespace).reverse.dropWhile
      Char.isWhitespace).reverse)

/-- A matched anchor element: its text and its optional `href` attribute. -/
structure AnchorEl where
  text : String
  href : Option String

/-- A matched container's title sub-element. -/
structure NamedEl where
  text : String

/-- One element matched by a category selector group: either an anchor or
a container holding an optional title element and an optional link. -/
inductive CatElement where
  | anchor (a : AnchorEl)
  | container (nameEl : Option NamedEl) (urlEl : Option AnchorEl)

/-- The fetched podcasts page, abstracted to the three selector results
`scrape_podcast_categories` reads: the specific selector group, the
generic fallback group, and the document body. -/
structure CatDocument where
  primaryMatches : List CatElement
  fallbackMatches : List CatElement
  body : Option String

/-- One `{"name", "url"}` category record. -/
def catEntry (name url : String) : Json :=
  .obj [("name", .str name), ("url", .str url)]

/-- The categories contributed by one matched element: anchors need a
truthy stripped text and a truthy `href` (a missing `href` raises
`KeyError`); containers need a title element and a link carrying `href`.
Every emitted URL goes through `resolveUrl`. -/
def processCatElement (element : CatElement) : PyM (List Json) :=
  match element with
  | .anchor a => do
    let name := pyStrip a.text
    let url ← match a.href with
      | some u => pure u
      | none => Except.error "KeyError"
    if name != "" && url != "" then
      pure [catEntry name (resolveUrl url)]
    else pure []
  | .container nameEl urlEl =>
    match nameEl, urlEl with
    | some ne, some ue =>
      match ue.href with
      | some u => pure [catEntry (pyStrip ne.text) (resolveUrl u)]
      | none => pure []
    | _, _ => pure []

/-- The ≤1000-character diagnostic snippet used on the no-category path. -/
def sampleOf (doc : CatDocument) : String :=
  match doc.body with
  | some b => String.mk (b.toList.take 1000)
  | none => "No body found"

/-- Body of `scrape_podcast_categories` (inside its exception handler):
the specific selector group wins when non-empty, otherwise the generic
group is used; zero collected categories produce the debug-annotated
empty result. -/
def scrapeCatsBody (doc : CatDocument) : PyM Json := do
  let category_elements :=
    if !doc.primaryMatches.isEmpty then doc.primaryMatches
    else doc.fallbackMatches
  let categoriesLists ← category_elements.mapM processCatElement
  let categories := categoriesLists.flatten
  if categories.isEmpty then
    pure (.obj [("categories", .arr []),
      ("debug", .obj [
        ("message", .str "No categories found with current selectors"),
        ("sampleHtml", .str (sampleOf doc))])])
  else
    pure (.obj [("categories", .arr categories)])

/-- Tool `scrape_podcast_categories`, over the abstracted fetched page. -/
def scrape_podcast_categories (doc : CatDocument) : Json :=
  match scrapeCatsBody doc with
  | .ok j => j
  | .error e => errObj ("Error scraping podcast categories: " ++ e)

/-! Predicates and concrete environments used by the verification below. -/

/-- The `queryType` discriminator of a composed search result. -/
def queryTypeOf (j : Json) : Option Json :=
  match j with
  | .obj fs => fs.lookup "queryType"
  | _ => none

/-- Whether a sort key/value pair carries the key `s`. -/
def keyIs (s : String) (p : String × Json) : Bool := p.1 == s

/-- Whether a grid step carries a `diffusion` key (in the sense of the
`"diffusion" in step` test the server performs). -/
def hasDiffusion (step : Json) : Bool :=
  match pyContains step "diffusion" with
  | .ok b => b
  | .error _ => false

/-- Whether the field `k`, if present at all, holds a string. -/
def strOrAbsent (fs : List (String × Json)) (k : String) : Bool :=
  match fs.lookup k with
  | none => true
  | some (.str _) => true
  | some _ => false

/-- A partial raw diffusion tree in which data may be missing but no
present field is ill-typed: scalars, when present, are strings, and the
nested `podcastEpisode`/`brand`/`station` positions, when present, are
objects (in particular none of them is an explicit JSON `null`). -/
def wellTypedDiffusion (d : Json) : Bool :=
  match d with
  | .obj fs =>
    strOrAbsent fs "id" && strOrAbsent fs "title" && strOrAbsent fs "url" &&
    strOrAbsent fs "standFirst" && strOrAbsent fs "diffusionDate" &&
    (match fs.lookup "podcastEpisode" with
     | none => true
     | some (.obj pf) => strOrAbsent pf "url"
     | some _ => false) &&
    (match fs.lookup "brand" with
     | none => true
     | some (.obj bf) =>
       strOrAbsent bf "title" &&
       (match bf.lookup "station" with
        | none => true
        | some (.obj sf) => strOrAbsent sf "name"
        | some _ => false)
     | some _ => false)
  | _ => false

/-- Whether every field of an object holds a string value. -/
def allStrFields (j : Json) : Bool :=
  match j with
  | .obj fs => fs.all fun p => match p.2 with | .str _ => true | _ => false
  | _ => false

/-- Whether per-diffusion normalization succeeds on `d` with every
declared field a string. -/
def formatsTotallyStr (d : Json) : Bool :=
  match formatDiffusion d with
  | .ok f => allStrFields f
  | .error _ => false

/-- An environment with no credential configured. -/
def envNoKey : Env := { apiKey := none, gw := fun _ => Except.error "unreachable" }

/-- An environment whose gateway answers every query with a response tree
lacking the expected top-level key. -/
def envC9 : Env :=
  { apiKey := some "k",
    gw := fun q =>
      match q with
      | .diffusions _ _ => .ok (.obj [])
      | .taxonomies _ _ => .ok (.obj [])
      | _ => .error "unused" }

/-- An environment whose grid response has a first step without a
diffusion and a second step with one. -/
def envC7 : Env :=
  { apiKey := some "k",
    gw := fun q =>
      match q with
      | .grid _ => .ok (.obj [("grid", .obj [
          ("station", .obj [("id", .str "fc"), ("name", .str "France Culture")]),
          ("steps", .arr [
            .obj [("startTime", .str "08:00"), ("endTime", .str "09:00")],
            .obj [("startTime", .str "09:00"), ("endTime", .str "10:00"),
              ("diffusion", .obj [("id", .str "d2"), ("title", .str "T2"),
                ("standFirst", .str "S2"), ("url", .str "u2"),
                ("brand", .obj [("title", .str "B2")])])]])])])
      | _ => .error "unused" }

/-- A well-formed single-step grid response. -/
def gridRespOk : Json :=
  .obj [("grid", .obj [
    ("station", .obj [("id", .str "fi"), ("name", .str "France Inter")]),
    ("steps", .arr [
      .obj [("startTime", .str "08"), ("endTime", .str "09"),
        ("diffusion", .obj [("id", .str "d"), ("title", .str "Morning"),
          ("standFirst", .str "s"), ("url", .str "u"),
          ("brand", .obj [("title", .str "B")])])]])])]

/-- An environment in which every station grid lookup succeeds. -/
def envC2 : Env :=
  { apiKey := some "k",
    gw := fun q =>
      match q with
      | .grid _ => .ok gridRespOk
      | _ => .error "unused" }

/-- A second all-grids-succeed environment, for the station-precedence
scenario. -/
def envC10 : Env :=
  { apiKey := some "k",
    gw := fun q =>
      match q with
      | .grid _ => .ok gridRespOk
      | _ => .error "unused" }

/-- An environment returning one taxonomy whose diffusion lookup then
fails with a transport error. -/
def envC1a : Env :=
  { apiKey := some "k",
    gw := fun q =>
      match q with
      | .taxonomies _ _ => .ok (.obj [("taxonomies", .arr [
          .obj [("id", .str "T1"), ("title", .str "Hist"), ("type", .str "theme")]])])
      | .diffusions _ _ => .error "network down"
      | _ => .error "unused" }

/-- An environment in which the station grid lookup fails with a
transport error while taxonomy search legitimately finds nothing. -/
def envC1b : Env :=
  { apiKey := some "k",
    gw := fun q =>
      match q with
      | .grid _ => .error "transport down"
      | .taxonomies _ _ => .ok (.obj [])
      | _ => .error "unused" }

/-- An environment whose initial taxonomy resolution itself fails. -/
def envC1w : Env :=
  { apiKey := some "k", gw := fun _ => Except.error "boom" }

/-- An environment producing diffusions with brand titles `B`, `A`, `B`
in discovery order, from two taxonomies. -/
def envC5 : Env :=
  { apiKey := some "k",
    gw := fun q =>
      match q with
      | .taxonomies _ _ => .ok (.obj [("taxonomies", .arr [
          .obj [("id", .str "t1"), ("title", .str "Tax1"), ("type", .str "theme")],
          .obj [("id", .str "t2"), ("title", .str "Tax2"), ("type", .str "theme")]])])
      | .diffusions tid _ =>
        match tid with
        | .str s =>
          if s == "t1" then
            .ok (.obj [("taxonomy", .obj [("id", .str "t1"), ("title", .str "Tax1"),
              ("diffusions", .arr [
                .obj [("id", .str "d1"), ("title", .str "DB1"),
                  ("brand", .obj [("title", .str "B")])]])])])
          else
            .ok (.obj [("taxonomy", .obj [("id", .str "t2"), ("title", .str "Tax2"),
              ("diffusions", .arr [
                .obj [("id", .str "d2"), ("title", .str "DA"),
                  ("brand", .obj [("title", .str "A")])],
                .obj [("id", .str "d3"), ("title", .str "DB3"),
                  ("brand", .obj [("title", .str "B")])]])])])
        | _ => .error "unused"
      | _ => .error "unused" }

/-- A fetched page on which no category selector matches anything. -/
def docC8 : CatDocument := { primaryMatches := [], fallbackMatches := [], body := none }

/-! Helper lemmas. -/

theorem pyBind_ok {α β : Type} (a : α) (f : α → PyM β) :
    Except.ok a >>= f = f a := rfl

theorem pyBind_err {α β : Type} (e : String) (f : α → PyM β) :
    (Except.error e : PyM α) >>= f = Except.error e := rfl

theorem pyPure {α : Type} (a : α) : (pure a : PyM α) = Except.ok a := rfl

theorem runLeaf_ok (env : Env) (q : GwQuery) (format : Json → PyM Json)
    (errPre : String) (r j : Json) (hgw : env.gw q = .ok r)
    (hf : format r = .ok j) : runLeaf env q format errPre = (j, 1) := by
  simp [runLeaf, hgw, hf]

theorem jGetD_obj (fs : List (String × Json)) (k : String) (dflt : Json) :
    jGetD (.obj fs) k dflt = Except.ok ((fs.lookup k).getD dflt) := rfl

/-! Claim theorems. -/

/-- C4: when the credential is absent, `get_brand` returns the
configuration-error object and performs zero gateway invocations. -/
theorem c4_get_brand_short_circuits (env : Env) (brand_id : String)
    (h : apiKeySet env = false) :
    get_brand env brand_id = (errObj apiKeyMsg, 0) := by
  simp [get_brand, h]

/-- C4 witness: the short circuit at a concrete credential-less
environment. -/
theorem c4_witness :
    apiKeySet envNoKey = false ∧
    get_brand envNoKey "x" = (errObj apiKeyMsg, 0) :=
  ⟨rfl, c4_get_brand_short_circuits envNoKey "x" rfl⟩

/-- C9 counterexample: a gateway response without the expected top-level
key makes `get_taxonomies` return the empty list, but makes
`get_diffusions` return an error-shaped object, refuting the uniform
"no data, not an error" reading. -/
theorem c9_counterexample :
    get_taxonomies envC9 (some "q") 10 = (.arr [], 1) ∧
    get_diffusions envC9 (.str "T") 10 =
      (errObj "No diffusions found for taxonomy ID: T", 1) ∧
    isDictWithKey (get_diffusions envC9 (.str "T") 10).1 "error" = true :=
  ⟨rfl, rfl, rfl⟩

/-- C9 amended: when the expected top-level key is absent from a
successful response, `get_taxonomies` returns the empty list (no data)
while `get_diffusions` returns the error-shaped
`No diffusions found` object. -/
theorem c9_amended :
    (∀ (env : Env) (kw : Option String) (lim : Int) (r : Json),
      apiKeySet env = true → env.gw (.taxonomies kw lim) = .ok r →
      pyContains r "taxonomies" = .ok false →
      get_taxonomies env kw lim = (.arr [], 1)) ∧
    (∀ (env : Env) (tid : Json) (lim : Int) (r : Json),
      apiKeySet env = true → env.gw (.diffusions tid lim) = .ok r →
      pyContains r "taxonomy" = .ok false →
      get_diffusions env tid lim =
        (errObj ("No diffusions found for taxonomy ID: " ++ pyStr tid), 1)) := by
  constructor
  · intro env kw lim r hk hgw hpc
    have hf : formatTaxonomies r = .ok (.arr []) := by
      simp [formatTaxonomies, hpc, pyBind_ok, pyPure]
    simp [get_taxonomies, hk, runLeaf_ok env _ formatTaxonomies _ r _ hgw hf]
  · intro env tid lim r hk hgw hpc
    have hf : formatDiffusionsResult tid r =
        .ok (errObj ("No diffusions found for taxonomy ID: " ++ pyStr tid)) := by
      simp [formatDiffusionsResult, hpc, pyBind_ok, pyPure]
    simp [get_diffusions, hk,
      runLeaf_ok env _ (formatDiffusionsResult tid) _ r _ hgw hf]

/-- C9 witness: the amended behavior at the concrete key-less responses. -/
theorem c9_witness :
    get_taxonomies envC9 (some "w") 3 = (.arr [], 1) ∧
    get_diffusions envC9 (.str "W") 3 =
      (errObj ("No diffusions found for taxonomy ID: " ++ pyStr (.str "W")), 1) :=
  ⟨c9_amended.1 envC9 (some "w") 3 (.obj []) rfl rfl rfl,
   c9_amended.2 envC9 (.str "W") 3 (.obj []) rfl rfl rfl⟩

/-- C8: when neither selector group matches any category element,
`scrape_podcast_categories` returns the successful empty-categories
result with a debug block whose `sampleHtml` is at most 1000 characters. -/
theorem c8_empty_selectors_debug (doc : CatDocument)
    (h1 : doc.primaryMatches = []) (h2 : doc.fallbackMatches = []) :
    scrape_podcast_categories doc =
      .obj [("categories", .arr []),
        ("debug", .obj [
          ("message", .str "No categories found with current selectors"),
          ("sampleHtml", .str (sampleOf doc))])] ∧
    (sampleOf doc).length ≤ 1000 := by
  constructor
  · simp [scrape_podcast_categories, scrapeCatsBody, h1, h2, pyBind_ok,
      pyPure, List.mapM, List.mapM.loop]
  · cases hb : doc.body with
    | some b =>
      have hl : (String.mk (b.toList.take 1000)).length =
          (b.toList.take 1000).length := rfl
      simp [sampleOf, hb, hl, List.length_take]
    | none =>
      simp only [sampleOf, hb]
      decide

/-- C8 witness: the degraded-but-successful result on a concrete
matchless page. -/
theorem c8_witness :
    scrape_podcast_categories docC8 =
      .obj [("categories", .arr []),
        ("debug", .obj [
          ("message", .str "No categories found with current selectors"),
          ("sampleHtml", .str (sampleOf docC8))])] ∧
    (sampleOf docC8).length ≤ 1000 :=
  c8_empty_selectors_debug docC8 rfl rfl

/-- The site base URL itself starts with `http`, so a resolved URL always
does. -/
theorem base_append_http (u : String) :
    strStarts (WEBSITE_BASE_URL ++ u).toList "http".toList = true := by
  obtain ⟨ud⟩ := u
  rfl

/-- An already-absolute URL passes through `resolveUrl` unchanged. -/
theorem resolveUrl_abs (u : String)
    (h : strStarts u.toList "http".toList = true) : resolveUrl u = u := by
  unfold resolveUrl
  rw [h]
  simp

/-- A relative URL gets the site base prepended. -/
theorem resolveUrl_rel (u : String)
    (h : strStarts u.toList "http".toList = false) :
    resolveUrl u = WEBSITE_BASE_URL ++ u := by
  unfold resolveUrl
  rw [h]
  simp

/-- C6: URL absolutization is idempotent, and already-absolute URLs pass
through unchanged. -/
theorem c6_resolveUrl_idempotent :
    (∀ u : String, resolveUrl (resolveUrl u) = resolveUrl u) ∧
    (∀ u : String, strStarts u.toList "http".toList = true →
      resolveUrl u = u) := by
  constructor
  · intro u
    cases h : strStarts u.toList "http".toList with
    | true => rw [resolveUrl_abs u h, resolveUrl_abs u h]
    | false =>
      rw [resolveUrl_rel u h]
      exact resolveUrl_abs _ (base_append_http u)
  · intro u h
    exact resolveUrl_abs u h

/-- C6 witness: idempotence and pass-through at concrete URLs. -/
theorem c6_witness :
    resolveUrl (resolveUrl "/podcasts") = resolveUrl "/podcasts" ∧
    (strStarts "http://x".toList "http".toList = true ∧
     resolveUrl "http://x" = "http://x") :=
  ⟨c6_resolveUrl_idempotent.1 "/podcasts", rfl,
   c6_resolveUrl_idempotent.2 "http://x" rfl⟩

/-- A per-step formatting outcome exposes whether the step carried a
diffusion: an entry is produced exactly when the key was present. -/
theorem formatStep_hasDiffusion (step : Json) (e : Option Json)
    (h : formatStep step = .ok e) : hasDiffusion step = e.isSome := by
  unfold formatStep at h
  cases hc : pyContains step "diffusion" with
  | error er => rw [hc] at h; simp [pyBind_err] at h
  | ok b =>
    rw [hc] at h
    unfold hasDiffusion
    rw [hc]
    cases b with
    | false =>
      rw [pyBind_ok] at h
      simp [pyPure] at h
      simp [← h]
    | true =>
      rw [pyBind_ok] at h
      simp only [Bool.if_true_left, if_true] at h
      cases hji : jIndexS step "diffusion" with
      | error er => rw [hji, pyBind_err] at h; simp at h
      | ok d =>
        rw [hji, pyBind_ok] at h
        cases hse : stepEntry step d with
        | error er => rw [hse, pyBind_err] at h; simp at h
        | ok ent =>
          rw [hse, pyBind_ok] at h
          simp [pyPure] at h
          simp [← h]

/-- C7: `get_station_grid` emits a program entry only for steps whose
diffusion exists: a step without the `diffusion` key contributes nothing,
the emitted entries are exactly as many as the diffusion-bearing steps,
and in the concrete two-step grid whose first step lacks a diffusion the
resulting `programs` list holds exactly the second step's entry, with its
`startTime`, `endTime` and diffusion fields. -/
theorem c7_programs_only_with_diffusion :
    (∀ (step : Json) (rest : List Json),
      pyContains step "diffusion" = .ok false →
      formatPrograms (step :: rest) = formatPrograms rest) ∧
    (∀ (steps ps : List Json),
      formatPrograms steps = .ok ps →
      ps.length = steps.countP hasDiffusion) ∧
    get_station_grid envC7 "franceculture" =
      (.obj [("stationName", .str "France Culture"), ("stationId", .str "fc"),
        ("programs", .arr [.obj [("startTime", .str "09:00"),
          ("endTime", .str "10:00"), ("id", .str "d2"), ("title", .str "T2"),
          ("description", .str "S2"), ("url", .str "u2"),
          ("brand", .str "B2")]])], 1) := by
  refine ⟨?_, ?_, rfl⟩
  · intro step rest h
    have hs : formatStep step = .ok none := by
      unfold formatStep
      rw [h, pyBind_ok]
      simp [pyPure]
    cases hr : formatPrograms rest with
    | ok tail => simp [formatPrograms, hs, hr, pyBind_ok, pyPure]
    | error e => simp [formatPrograms, hs, hr, pyBind_ok, pyBind_err]
  · intro steps
    induction steps with
    | nil =>
      intro ps h
      simp [formatPrograms, pyPure] at h
      subst h
      rfl
    | cons step rest ih =>
      intro ps h
      rw [formatPrograms] at h
      cases hfs : formatStep step with
      | error e => rw [hfs, pyBind_err] at h; simp at h
      | ok e =>
        rw [hfs, pyBind_ok] at h
        cases hr : formatPrograms rest with
        | error e2 => rw [hr, pyBind_err] at h; simp at h
        | ok tail =>
          rw [hr, pyBind_ok] at h
          simp [pyPure] at h
          have hd := formatStep_hasDiffusion step e hfs
          cases e with
          | some x =>
            rw [List.countP_cons]
            simp at hd
            rw [hd, ← h]
            simp [ih tail hr]
          | none =>
            rw [List.countP_cons]
            simp at hd
            rw [hd, ← h]
            simp [ih tail hr]

/-- C7 witness: the skip and counting facts at concrete steps. -/
theorem c7_witness :
    formatPrograms [Json.obj [("startTime", Json.str "08:00")]] =
      formatPrograms [] ∧
    ([] : List Json).length = List.countP hasDiffusion ([] : List Json) :=
  ⟨c7_programs_only_with_diffusion.1
      (Json.obj [("startTime", Json.str "08:00")]) [] rfl,
   c7_programs_only_with_diffusion.2.1 [] [] rfl⟩

/-- C3 counterexample: with an explicit JSON `null` in the raw tree,
per-diffusion normalization raises (`null` in a nested-object position)
or yields a non-string declared field (`null` in a scalar position). -/
theorem c3_counterexample :
    formatDiffusion (.obj [("brand", Json.null)]) = .error "AttributeError" ∧
    formatDiffusion (.obj [("title", Json.null)]) =
      .ok (.obj [("id", .str ""), ("title", Json.null), ("url", .str ""),
        ("description", .str ""), ("diffusionDate", .str ""),
        ("podcastUrl", .str ""), ("brand", .str ""), ("station", .str "")]) ∧
    allStrFields (.obj [("id", .str ""), ("title", Json.null),
      ("url", .str ""), ("description", .str ""), ("diffusionDate", .str ""),
      ("podcastUrl", .str ""), ("brand", .str ""), ("station", .str "")])
      = false :=
  ⟨rfl, rfl, rfl⟩

/-- A field constrained by `strOrAbsent` reads back as a string under the
empty-string default. -/
theorem strOrAbsent_getD (fs : List (String × Json)) (k : String)
    (h : strOrAbsent fs k = true) :
    ∃ s, (fs.lookup k).getD (.str "") = .str s := by
  unfold strOrAbsent at h
  cases hl : fs.lookup k with
  | none => exact ⟨"", by simp [hl]⟩
  | some v =>
    rw [hl] at h
    cases v with
    | str s => exact ⟨s, by simp [hl]⟩
    | null => simp at h
    | bool b => simp at h
    | num n => simp at h
    | arr l => simp at h
    | obj o => simp at h

/-- Normalization of a raw diffusion whose nested positions are objects
computes to the fully-defaulted record. -/
theorem formatDiffusion_obj (fs pf bf sf : List (String × Json))
    (hpe : (fs.lookup "podcastEpisode").getD (.obj []) = .obj pf)
    (hbr : (fs.lookup "brand").getD (.obj []) = .obj bf)
    (hst : (bf.lookup "station").getD (.obj []) = .obj sf) :
    formatDiffusion (.obj fs) = .ok (.obj [
      ("id", (fs.lookup "id").getD (.str "")),
      ("title", (fs.lookup "title").getD (.str "")),
      ("url", (fs.lookup "url").getD (.str "")),
      ("description", (fs.lookup "standFirst").getD (.str "")),
      ("diffusionDate", (fs.lookup "diffusionDate").getD (.str "")),
      ("podcastUrl", (pf.lookup "url").getD (.str "")),
      ("brand", (bf.lookup "title").getD (.str "")),
      ("station", (sf.lookup "name").getD (.str ""))]) := by
  simp [formatDiffusion, jGetD_obj, pyBind_ok, pyPure, hpe, hbr, hst]

/-- C3 amended: on raw trees where data is missing (rather than an
explicit `null`) and every present field is well-typed, per-diffusion
normalization never raises and every declared field is a string,
defaulting to the empty string when the source field is absent. -/
theorem c3_normalize_wellTyped :
    (∀ d : Json, wellTypedDiffusion d = true → formatsTotallyStr d = true) ∧
    formatDiffusion (.obj []) = .ok (.obj [("id", .str ""),
      ("title", .str ""), ("url", .str ""), ("description", .str ""),
      ("diffusionDate", .str ""), ("podcastUrl", .str ""),
      ("brand", .str ""), ("station", .str "")]) := by
  refine ⟨?_, rfl⟩
  intro d h
  cases d with
  | null => simp [wellTypedDiffusion] at h
  | bool b => simp [wellTypedDiffusion] at h
  | num n => simp [wellTypedDiffusion] at h
  | str s => simp [wellTypedDiffusion] at h
  | arr l => simp [wellTypedDiffusion] at h
  | obj fs =>
    unfold wellTypedDiffusion at h
    simp only [Bool.and_eq_true] at h
    obtain ⟨⟨⟨⟨⟨⟨h1, h2⟩, h3⟩, h4⟩, h5⟩, hpe⟩, hbr⟩ := h
    have hpe2 : ∃ pf, (fs.lookup "podcastEpisode").getD (.obj []) = .obj pf ∧
        strOrAbsent pf "url" = true := by
      cases hl : fs.lookup "podcastEpisode" with
      | none => exact ⟨[], by simp [hl], rfl⟩
      | some v =>
        rw [hl] at hpe
        cases v with
        | obj pf => exact ⟨pf, by simp [hl], hpe⟩
        | null => simp at hpe
        | bool b => simp at hpe
        | num n => simp at hpe
        | str s => simp at hpe
        | arr l => simp at hpe
    have hbr2 : ∃ bf, (fs.lookup "brand").getD (.obj []) = .obj bf ∧
        strOrAbsent bf "title" = true ∧
        (match bf.lookup "station" with
         | none => true
         | some (.obj sf) => strOrAbsent sf "name"
         | some _ => false) = true := by
      cases hl : fs.lookup "brand" with
      | none => exact ⟨[], by simp [hl], rfl, rfl⟩
      | some v =>
        rw [hl] at hbr
        cases v with
        | obj bf =>
          simp only [Bool.and_eq_true] at hbr
          exact ⟨bf, by simp [hl], hbr.1, hbr.2⟩
        | null => simp at hbr
        | bool b => simp at hbr
        | num n => simp at hbr
        | str s => simp at hbr
        | arr l => simp at hbr
    obtain ⟨pf, hpeE, hpeS⟩ := hpe2
    obtain ⟨bf, hbrE, hbrT, hbrSt⟩ := hbr2
    have hst2 : ∃ sf, (bf.lookup "station").getD (.obj []) = .obj sf ∧
        strOrAbsent sf "name" = true := by
      cases hl : bf.lookup "station" with
      | none => exact ⟨[], by simp [hl], rfl⟩
      | some v =>
        rw [hl] at hbrSt
        cases v with
        | obj sf => exact ⟨sf, by simp [hl], hbrSt⟩
        | null => simp at hbrSt
        | bool b => simp at hbrSt
        | num n => simp at hbrSt
        | str s => simp at hbrSt
        | arr l => simp at hbrSt
    obtain ⟨sf, hstE, hstS⟩ := hst2
    unfold formatsTotallyStr
    rw [formatDiffusion_obj fs pf bf sf hpeE hbrE hstE]
    obtain ⟨s1, e1⟩ := strOrAbsent_getD fs "id" h1
    obtain ⟨s2, e2⟩ := strOrAbsent_getD fs "title" h2
    obtain ⟨s3, e3⟩ := strOrAbsent_getD fs "url" h3
    obtain ⟨s4, e4⟩ := strOrAbsent_getD fs "standFirst" h4
    obtain ⟨s5, e5⟩ := strOrAbsent_getD fs "diffusionDate" h5
    obtain ⟨s6, e6⟩ := strOrAbsent_getD pf "url" hpeS
    obtain ⟨s7, e7⟩ := strOrAbsent_getD bf "title" hbrT
    obtain ⟨s8, e8⟩ := strOrAbsent_getD sf "name" hstS
    rw [e1, e2, e3, e4, e5, e6, e7, e8]
    rfl

/-- C3 witness: a concrete partial tree normalizes to all-string fields. -/
theorem c3_witness :
    wellTypedDiffusion (.obj [("title", .str "t")]) = true ∧
    formatsTotallyStr (.obj [("title", .str "t")]) = true :=
  ⟨rfl, c3_normalize_wellTyped.1 (.obj [("title", .str "t")]) rfl⟩

/-- If some listed station matches the query and its programs lookup
succeeds, the station scan returns a station answer. -/
theorem stationLoop_success (env : Env) (query : String) :
    ∀ l : List String,
      (∃ n, n ∈ l ∧ nameMatches query n = true ∧
        isDictWithoutKey (get_station_programs env n) "error" = true) →
      ∃ n', stationLoop env query l =
        some (stationAnswer n' (get_station_programs env n')) := by
  intro l
  induction l with
  | nil =>
    rintro ⟨n, hn, -, -⟩
    exact absurd hn (List.not_mem_nil n)
  | cons name rest ih =>
    rintro ⟨n, hn, hm, he⟩
    cases hmn : nameMatches query name with
    | true =>
      cases hen : isDictWithoutKey (get_station_programs env name) "error" with
      | true =>
        refine ⟨name, ?_⟩
        simp [stationLoop, hmn, hen]
      | false =>
        have hrest : n ∈ rest := by
          rcases List.mem_cons.mp hn with rfl | hr
          · rw [hen] at he
            exact absurd he (by simp)
          · exact hr
        have := ih ⟨n, hrest, hm, he⟩
        simpa [stationLoop, hmn, hen] using this
    | false =>
      have hrest : n ∈ rest := by
        rcases List.mem_cons.mp hn with rfl | hr
        · rw [hmn] at hm
          exact absurd hm (by simp)
        · exact hr
      have := ih ⟨n, hrest, hm, he⟩
      simpa [stationLoop, hmn] using this

/-- C2: whenever the query contains a known station name (and that
station's programs lookup does not fail), `natural_language_search`
answers with `queryType == "station"`, whatever the episode and taxonomy
stages would have produced. -/
theorem c2_station_priority (env : Env) (query : String) (max_results : Int)
    (hkey : apiKeySet env = true)
    (h : ∃ n, n ∈ stationNames ∧ nameMatches query n = true ∧
      isDictWithoutKey (get_station_programs env n) "error" = true) :
    queryTypeOf (natural_language_search env query max_results) =
      some (.str "station") := by
  obtain ⟨n', hl⟩ := stationLoop_success env query stationNames h
  simp [natural_language_search, hkey, hl, queryTypeOf, stationAnswer,
    List.lookup]

/-- C2 witness: a station-name query routes to the station stage in a
concrete environment. -/
theorem c2_witness :
    apiKeySet envC2 = true ∧
    queryTypeOf (natural_language_search envC2 "France Inter" 10) =
      some (.str "station") :=
  ⟨rfl, c2_station_priority envC2 "France Inter" 10 rfl
    ⟨"France Inter", by simp [stationNames], rfl, rfl⟩⟩

/-- The station scan returns the first listed matching station when that
station's programs lookup succeeds. -/
theorem stationLoop_first (env : Env) (query : String) :
    ∀ (l : List String) (s : String),
      l.find? (fun n => nameMatches query n) = some s →
      isDictWithoutKey (get_station_programs env s) "error" = true →
      stationLoop env query l =
        some (stationAnswer s (get_station_programs env s)) := by
  intro l
  induction l with
  | nil => intro s hf _; simp [List.find?] at hf
  | cons name rest ih =>
    intro s hf hok
    cases hmn : nameMatches query name with
    | true =>
      have hs : s = name := by
        rw [List.find?_cons_of_pos _ hmn] at hf
        exact (Option.some_inj.mp hf).symm
      subst hs
      simp [stationLoop, hmn, hok]
    | false =>
      have hf' : rest.find? (fun n => nameMatches query n) = some s := by
        rw [List.find?_cons_of_neg] at hf
        · exact hf
        · simp [hmn]
      simp [stationLoop, hmn, ih s hf' hok]

/-- C10: with several station names in the query, the chosen station is
the first match in the fixed internal list order (provided its programs
lookup succeeds), independent of where the names occur in the text. -/
theorem c10_station_list_order (env : Env) (query : String)
    (max_results : Int) (s : String) (hkey : apiKeySet env = true)
    (hfind : stationNames.find? (fun n => nameMatches query n) = some s)
    (hok : isDictWithoutKey (get_station_programs env s) "error" = true) :
    natural_language_search env query max_results =
      stationAnswer s (get_station_programs env s) := by
  simp [natural_language_search, hkey,
    stationLoop_first env query stationNames s hfind hok]

/-- C10 witness: a query naming FIP before France Inter still resolves
to France Inter, the earlier entry of the internal list. -/
theorem c10_witness :
    stationNames.find?
      (fun n => nameMatches "play FIP then France Inter" n) =
        some "France Inter" ∧
    natural_language_search envC10 "play FIP then France Inter" 10 =
      stationAnswer "France Inter"
        (get_station_programs envC10 "France Inter") :=
  ⟨rfl, c10_station_list_order envC10 "play FIP then France Inter" 10
    "France Inter" rfl rfl rfl⟩

/-- C1 counterexample: a transport error from a per-taxonomy
`get_diffusions` sub-call does not stop `search_podcasts` (the taxonomy
is silently skipped and an empty success result is returned), and a
transport error from a matched station's `get_station_programs` sub-call
does not stop `natural_language_search` (it falls through to the later
stages and ends at the general answer). -/
theorem c1_counterexample :
    envC1a.gw (.diffusions (.str "T1") 11) = .error "network down" ∧
    search_podcasts envC1a "q" 10 =
      .obj [("query", .str "q"), ("results", .arr [])] ∧
    envC1b.gw (.grid "franceinter") = .error "transport down" ∧
    natural_language_search envC1b "France Inter" 10 =
      nlsGeneral "France Inter" :=
  ⟨rfl, rfl, rfl, rfl⟩

/-- No listed station both matches the query and succeeds, so the station
scan yields nothing. -/
theorem stationLoop_none (env : Env) (query : String) :
    ∀ l : List String,
      (∀ name ∈ l, nameMatches query name = true →
        isDictWithoutKey (get_station_programs env name) "error" = false) →
      stationLoop env query l = none := by
  intro l
  induction l with
  | nil => intro _; rfl
  | cons name rest ih =>
    intro h
    cases hmn : nameMatches query name with
    | true =>
      have hen := h name (List.mem_cons_self name rest) hmn
      simp [stationLoop, hmn, hen]
      exact ih fun n hn hm => h n (List.mem_cons_of_mem name hn) hm
    | false =>
      simp [stationLoop, hmn]
      exact ih fun n hn hm => h n (List.mem_cons_of_mem name hn) hm

/-- C1 amended: an error from the initial `get_taxonomies` resolution is
propagated by `search_podcasts`, but an error-shaped (`diffusions`-less)
result from a per-taxonomy `get_diffusions` sub-call merely removes that
taxonomy's contribution instead of stopping the search, and an error
result from every matching station's `get_station_programs` makes
`natural_language_search` fall through to the episode/taxonomy/general
stages instead of propagating. -/
theorem c1_error_propagation :
    (∀ (env : Env) (q : String) (lim : Int) (e : String),
      apiKeySet env = true →
      env.gw (.taxonomies (some q) 5) = .error e →
      search_podcasts env q lim =
        errObj ("Error getting taxonomies: " ++ e)) ∧
    (∀ (env : Env) (limit n : Int) (taxonomy : Json) (rest : List Json)
      (tid : Json),
      jGetD taxonomy "id" (.str "") = .ok tid →
      pyTruthy tid = true → n ≠ 0 →
      isDictWithKey (get_diffusions env tid (limit.fdiv n + 1)).1
        "diffusions" = false →
      spLoop env limit n (taxonomy :: rest) = spLoop env limit n rest) ∧
    (∀ (env : Env) (q : String) (m : Int),
      apiKeySet env = true →
      (∀ name ∈ stationNames, nameMatches q name = true →
        isDictWithoutKey (get_station_programs env name) "error" = false) →
      natural_language_search env q m = nlsFallthrough env q m) := by
  refine ⟨?_, ?_, ?_⟩
  · intro env q lim e hk hgw
    have ht : (get_taxonomies env (some q) 5).1 =
        errObj ("Error getting taxonomies: " ++ e) := by
      simp [get_taxonomies, hk, runLeaf, hgw]
    simp [search_podcasts, hk, search_podcastsBody, ht, errObj,
      isDictWithKey, List.lookup, pyPure]
  · intro env limit n taxonomy rest tid hid htr hn hd
    have hfd : pyFloorDiv limit n = Except.ok (limit.fdiv n) := by
      simp [pyFloorDiv, hn, pyPure]
    rw [spLoop, hid, pyBind_ok, htr]
    simp only [if_true, hfd, pyBind_ok, hd, Bool.false_eq_true, if_false]
    cases hr : spLoop env limit n rest with
    | ok restD => simp [hr, pyBind_ok, pyPure]
    | error e2 => simp [hr, pyBind_err, pyBind_ok, pyPure]
  · intro env q m hk h
    simp [natural_language_search, hk, stationLoop_none env q stationNames h]

/-- C1 witness: the amended propagation behavior at the concrete
environments. -/
theorem c1_witness :
    search_podcasts envC1w "q" 10 =
      errObj ("Error getting taxonomies: " ++ "boom") ∧
    spLoop envC1a 10 1 [.obj [("id", .str "T1")]] = spLoop envC1a 10 1 [] ∧
    natural_language_search envC1b "France Inter" 10 =
      nlsFallthrough envC1b "France Inter" 10 :=
  ⟨c1_error_propagation.1 envC1w "q" 10 "boom" rfl rfl,
   c1_error_propagation.2.1 envC1a 10 1 (.obj [("id", .str "T1")]) []
     (.str "T1") rfl rfl (by decide) rfl,
   c1_error_propagation.2.2 envC1b "France Inter" 10 rfl (by decide)⟩

/-- Python's string order is reflexive. -/
theorem keyLe_refl (s : String) : keyLe s s = true := by
  unfold keyLe
  induction s.toList with
  | nil => rfl
  | cons c cs ih => simp [listLe, ih]

/-- Inserting into the filtered view: an ordered insert either prepends
the new pair to the equal-key sublist or leaves that sublist untouched. -/
theorem filter_orderedInsert (s : String) (a : String × Json) :
    ∀ l : List (String × Json),
      (l.orderedInsert (fun x y => keyLe x.1 y.1 = true) a).filter (keyIs s) =
        if keyIs s a then a :: l.filter (keyIs s)
        else l.filter (keyIs s) := by
  intro l
  induction l with
  | nil =>
    simp only [List.orderedInsert, List.filter]
    cases keyIs s a <;> simp
  | cons b t ih =>
    unfold List.orderedInsert
    by_cases hab : keyLe a.1 b.1 = true
    · rw [if_pos hab]
      simp only [List.filter_cons]
    · rw [if_neg hab]
      rw [List.filter_cons, ih]
      cases hks : keyIs s a with
      | true =>
        have has : a.1 = s := by simpa [keyIs] using hks
        have hbs : keyIs s b = false := by
          have hne : b.1 ≠ s := by
            intro hbs2
            apply hab
            rw [has, hbs2]
            exact keyLe_refl s
          simp [keyIs, hne]
        simp [hbs, List.filter_cons]
      | false =>
        simp [List.filter_cons]

/-- The sort of the composition layer is stable: for every key value,
the sorted list restricted to that key is the input restricted to that
key, in the original order. -/
theorem filter_sortKeyed (s : String) :
    ∀ kl : List (String × Json),
      (sortKeyed kl).filter (keyIs s) = kl.filter (keyIs s) := by
  intro kl
  induction kl with
  | nil => rfl
  | cons a t ih =>
    show ((List.insertionSort _ t).orderedInsert _ a).filter (keyIs s) = _
    rw [filter_orderedInsert]
    have ih' : (List.insertionSort
        (fun x y : String × Json => keyLe x.1 y.1 = true) t).filter
        (keyIs s) = t.filter (keyIs s) := ih
    rw [ih', List.filter_cons]

/-- C5: the concatenated tagged diffusions are sorted ascending by brand
title with a stable case-sensitive sort and truncated to the requested
limit; concretely, discovery-order brand titles `B`, `A`, `B` come out as
`A`, `B`, `B` with the two `B` entries in their original relative
order. -/
theorem c5_sort_stable_truncate :
    (∀ kl : List (String × Json),
      List.Sorted (fun a b => keyLe a.1 b.1 = true) (sortKeyed kl) ∧
      List.Perm (sortKeyed kl) kl ∧
      ∀ s, (sortKeyed kl).filter (keyIs s) = kl.filter (keyIs s)) ∧
    (∀ (lim : Int) (l : List Json),
      (pyTake lim l).length ≤ l.length ∧
      ((0:Int) ≤ lim → ((pyTake lim l).length : Int) ≤ lim)) ∧
    search_podcasts envC5 "x" 10 =
      .obj [("query", .str "x"), ("results", .arr [
        .obj [("id", .str "d2"), ("title", .str "DA"), ("url", .str ""),
          ("description", .str ""), ("diffusionDate", .str ""),
          ("podcastUrl", .str ""), ("brand", .str "A"), ("station", .str ""),
          ("taxonomyTitle", .str "Tax2"), ("taxonomyType", .str "theme")],
        .obj [("id", .str "d1"), ("title", .str "DB1"), ("url", .str ""),
          ("description", .str ""), ("diffusionDate", .str ""),
          ("podcastUrl", .str ""), ("brand", .str "B"), ("station", .str ""),
          ("taxonomyTitle", .str "Tax1"), ("taxonomyType", .str "theme")],
        .obj [("id", .str "d3"), ("title", .str "DB3"), ("url", .str ""),
          ("description", .str ""), ("diffusionDate", .str ""),
          ("podcastUrl", .str ""), ("brand", .str "B"), ("station", .str ""),
          ("taxonomyTitle", .str "Tax2"), ("taxonomyType", .str "theme")]])] := by
  refine ⟨?_, ?_, rfl⟩
  · intro kl
    refine ⟨List.sorted_insertionSort _ kl, List.perm_insertionSort _ kl, ?_⟩
    exact fun s => filter_sortKeyed s kl
  · intro lim l
    constructor
    · unfold pyTake
      split <;> simp [List.length_take]
    · intro hlim
      simp [pyTake, hlim, List.length_take]

/-- C5 witness: the truncation bound at a concrete call. -/
theorem c5_witness : ((pyTake 3 [Json.null]).length : Int) ≤ 3 :=
  (c5_sort_stable_truncate.2.1 3 [Json.null]).2 (by decide)

end RadioFrance
